import Mathlib

/-!
Verification of the text-to-search pipeline of the legal-document search
repository (src/utils/text_utils.py, src/services/pdf_processor.py,
src/services/search_service.py, src/services/elasticsearch_client.py,
src/models/document.py, src/main.py), as a shallow embedding in Lean 4.

Strings are modelled as `List Char` at the algorithmic level with `String`
wrappers at the API boundary.  Python semantics modelled here:

* `re.sub(r"\s+", " ", t)` is `collapseWS`: every maximal whitespace run
  becomes one space character.
* `str.strip()` is `pyStripL`: whitespace removed from both ends.
* `re.sub(r"[^\w\s가-힣]", " ", t)` is `replaceSpecial`: every character
  that is neither a word character nor whitespace becomes one space.
  `pyIsWordChar` restricts Python's Unicode `\w` to the scripts this
  repository actually processes (ASCII alphanumerics, underscore, and the
  Korean Hangul blocks); `pyIsSpace` is the ASCII core of `\s`.  The
  claims under study do not depend on characters outside these classes.
* `str.lower()` is mapped `Char.toLower` (ASCII case folding; Hangul has
  no case, so the Korean keywords are unaffected).
* Python floats appearing as boost weights and scores are modelled as `Rat`.
-/

def pyIsSpace (c : Char) : Bool :=
  c = ' ' || c = '\t' || c = '\n' || c = '\r' || c = '\x0b' || c = '\x0c'

def pyIsWordChar (c : Char) : Bool :=
  c.isAlphanum || c = '_' ||
    (0x1100 ≤ c.toNat && c.toNat ≤ 0x11FF) ||
    (0x3130 ≤ c.toNat && c.toNat ≤ 0x318F) ||
    (0xAC00 ≤ c.toNat && c.toNat ≤ 0xD7A3)

/-- One maximal run of whitespace becomes a single space: the effect of
Python's `re.sub(r"\s+", " ", text)`. -/
def collapseWS : List Char → List Char
  | [] => []
  | [c] => if pyIsSpace c then [' '] else [c]
  | c :: d :: cs =>
    if pyIsSpace c then
      if pyIsSpace d then collapseWS (d :: cs)
      else ' ' :: collapseWS (d :: cs)
    else c :: collapseWS (d :: cs)

/-- Python `str.lstrip()` on a character list. -/
def lstripL (l : List Char) : List Char := l.dropWhile pyIsSpace

/-- Python `str.rstrip()` on a character list. -/
def rstripL (l : List Char) : List Char := l.rdropWhile pyIsSpace

/-- Python `str.strip()` on a character list. -/
def pyStripL (l : List Char) : List Char := rstripL (lstripL l)

/-- Python `str.strip()`. -/
def pyStrip (s : String) : String := ⟨pyStripL s.data⟩

/-- The effect of `re.sub(r"[^\w\s가-힣]", " ", text)`: each character kept
by the class stays, every other character becomes one space.  (`\w` already
contains the Hangul syllables, so the extra range in the source pattern is
absorbed by `pyIsWordChar`.) -/
def replaceSpecial (l : List Char) : List Char :=
  l.map fun c => if pyIsWordChar c || pyIsSpace c then c else ' '

/-- The core of `TextProcessor.clean_text` on character lists. -/
def cleanL (l : List Char) : List Char := replaceSpecial (pyStripL (collapseWS l))

namespace TextProcessor

/-- `TextProcessor.clean_text` (src/utils/text_utils.py lines 11 to 26):
collapse whitespace runs, strip the ends, then replace the characters
outside the word/whitespace class with spaces.  The `if not text` guard
of the source returns the empty string for empty input. -/
def clean_text (text : String) : String :=
  if text = "" then "" else ⟨cleanL text.data⟩

/-- Python substring test `pat in hay` (list prefix at some position). -/
def startsWithL : List Char → List Char → Bool
  | [], _ => true
  | _ :: _, [] => false
  | p :: ps, h :: hs => p = h && startsWithL ps hs

def containsSubL (pat : List Char) : List Char → Bool
  | [] => pat.isEmpty
  | h :: t => startsWithL pat (h :: t) || containsSubL pat t

/-- Python `pat in hay` on strings. -/
def containsSub (pat hay : String) : Bool := containsSubL pat.data hay.data

/-- Python `str.lower()` (ASCII folding; Hangul is caseless). -/
def lowerS (s : String) : String := ⟨s.data.map Char.toLower⟩

def stalking_keywords : List String := ["스토킹", "괴롭힘", "추적", "감시", "접근금지"]

def violence_keywords : List String := ["성폭력", "성추행", "성희롱", "강간", "추행"]

def gambling_keywords : List String := ["도박", "사행", "카지노", "경마", "복권", "게임"]

/-- `sum(1 for keyword in keywords if keyword in text_lower)`. -/
def keywordCount (keywords : List String) (text_lower : String) : Nat :=
  (keywords.filter fun k => containsSub k text_lower).length

def stalking_count (text : String) : Nat :=
  keywordCount stalking_keywords (lowerS text)

def violence_count (text : String) : Nat :=
  keywordCount violence_keywords (lowerS text)

def gambling_count (text : String) : Nat :=
  keywordCount gambling_keywords (lowerS text)

/-- `TextProcessor.categorize_content` (src/utils/text_utils.py lines 106
to 128): count the distinct keywords of each group occurring in the
lower-cased text and walk the comparison ladder of the source. -/
def categorize_content (text : String) : String :=
  if stalking_count text ≥ violence_count text ∧ stalking_count text ≥ gambling_count text
    then "스토킹"
  else if violence_count text ≥ stalking_count text ∧ violence_count text ≥ gambling_count text
    then "성폭력"
  else if gambling_count text ≥ stalking_count text ∧ gambling_count text ≥ violence_count text
    then "사행산업"
  else "기타"

end TextProcessor

section ClassifierLemmas

open TextProcessor

/-- The comparison ladder of `categorize_content` over arbitrary counts
equals the priority-ordered maximum selection, and in particular never
reaches its final branch. -/
theorem ladder_eq_priority_max (s v g : Nat) :
    (if s ≥ v ∧ s ≥ g then "스토킹"
     else if v ≥ s ∧ v ≥ g then "성폭력"
     else if g ≥ s ∧ g ≥ v then "사행산업"
     else "기타") =
    (if s ≥ max v g then "스토킹"
     else if v ≥ g then "성폭력"
     else "사행산업") := by
  rcases Nat.le_total v g with h | h <;>
    simp only [Nat.max_def] <;> split_ifs <;> first | rfl | omega

/-- C2 (corrected): `categorize_content` does implement "largest count wins,
ties broken by the fixed priority stalking before violence before gambling",
but a text in which no keyword occurs (all three counts zero) takes the
first branch and yields "스토킹", never "기타".  This theorem is the whole
amended behaviour: the result is the label of the first group, in priority
order, whose count reaches the maximum of the three counts. -/
theorem categorize_content_priority_max (text : String) :
    categorize_content text =
      (if stalking_count text ≥ max (violence_count text) (gambling_count text)
        then "스토킹"
       else if violence_count text ≥ gambling_count text then "성폭력"
       else "사행산업") := by
  unfold categorize_content
  exact ladder_eq_priority_max _ _ _

/-- C2 witness: the amended statement evaluated at a concrete text whose
counts are 1, 0, 0. -/
theorem categorize_content_priority_max_witness :
    categorize_content "스토킹" =
      (if stalking_count "스토킹" ≥ max (violence_count "스토킹") (gambling_count "스토킹")
        then "스토킹"
       else if violence_count "스토킹" ≥ gambling_count "스토킹" then "성폭력"
       else "사행산업") :=
  categorize_content_priority_max "스토킹"

/-- C2 counterexample: the claim predicts the label Other ("기타") for a text
in which no keyword of any group occurs; the empty text has all three counts
zero, yet the code returns the group-A label "스토킹". -/
theorem categorize_content_empty_not_other :
    categorize_content "" = "스토킹" := by decide

/-- C9 (confirmed): `categorize_content` always returns one of the three
group labels and never "기타": whatever the three counts, the maximal one
satisfies its pair of greater-or-equal comparisons, so the final else branch
is unreachable. -/
theorem categorize_content_never_other (text : String) :
    (categorize_content text = "스토킹" ∨ categorize_content text = "성폭력" ∨
      categorize_content text = "사행산업") ∧ categorize_content text ≠ "기타" := by
  have h : categorize_content text = "스토킹" ∨ categorize_content text = "성폭력" ∨
      categorize_content text = "사행산업" := by
    unfold categorize_content
    split_ifs with h1 h2 h3
    · exact Or.inl rfl
    · exact Or.inr (Or.inl rfl)
    · exact Or.inr (Or.inr rfl)
    · exfalso; omega
  refine ⟨h, ?_⟩
  rcases h with h | h | h <;> rw [h] <;> decide

/-- C9 witness: the disjunction at a concrete text containing a gambling
keyword. -/
theorem categorize_content_never_other_witness :
    (categorize_content "카지노" = "스토킹" ∨ categorize_content "카지노" = "성폭력" ∨
      categorize_content "카지노" = "사행산업") ∧ categorize_content "카지노" ≠ "기타" :=
  categorize_content_never_other "카지노"

end ClassifierLemmas

/-! ### Idempotence analysis of `clean_text` (claim C3)

`clean_text` is not idempotent: replacing a special character that stands
between two word characters with a space creates a double space which only
the next application collapses.  From the second application on it is a
fixpoint, which the following lemmas establish. -/

section CleanLemmas

open TextProcessor

/-- Two space characters never stand next to each other. -/
def noAdjSp (l : List Char) : Prop :=
  List.Chain' (fun a b => ¬(pyIsSpace a = true ∧ pyIsSpace b = true)) l

theorem head?_dropWhile {p : Char → Bool} :
    ∀ {l : List Char} {c : Char}, (l.dropWhile p).head? = some c → p c = false := by
  intro l
  induction l with
  | nil => intro c h; simp [List.dropWhile] at h
  | cons a t ih =>
    intro c h
    cases hpa : p a with
    | true => rw [List.dropWhile_cons_of_pos hpa] at h; exact ih h
    | false =>
      rw [List.dropWhile_cons_of_neg (by simp [hpa])] at h
      simp only [List.head?_cons, Option.some.injEq] at h
      rw [← h]; exact hpa

theorem dropWhile_eq_self_of_head? {p : Char → Bool} {l : List Char}
    (h : ∀ c, l.head? = some c → p c = false) : l.dropWhile p = l := by
  cases l with
  | nil => rfl
  | cons a t => exact List.dropWhile_cons_of_neg (by simp [h a rfl])

theorem mem_collapseWS_of_mem :
    ∀ l : List Char, ∀ c ∈ collapseWS l, c ∈ l ∨ c = ' ' := by
  intro l
  induction l using collapseWS.induct with
  | case1 => intro c h; simp [collapseWS] at h
  | case2 c0 hs =>
    intro c h
    simp [collapseWS, hs] at h
    exact Or.inr h
  | case3 c0 hs =>
    intro c h
    simp [collapseWS, hs] at h
    exact Or.inl (by simp [h])
  | case4 c0 d cs h1 h2 ih =>
    intro c h
    rw [collapseWS, if_pos h1, if_pos h2] at h
    rcases ih c h with h | h
    · exact Or.inl (List.mem_cons_of_mem _ h)
    · exact Or.inr h
  | case5 c0 d cs h1 h2 ih =>
    intro c h
    rw [collapseWS, if_pos h1, if_neg h2] at h
    rcases List.mem_cons.mp h with h | h
    · exact Or.inr h
    · rcases ih c h with h | h
      · exact Or.inl (List.mem_cons_of_mem _ h)
      · exact Or.inr h
  | case6 c0 d cs h1 ih =>
    intro c h
    rw [collapseWS, if_neg h1] at h
    rcases List.mem_cons.mp h with h | h
    · exact Or.inl (by simp [h])
    · rcases ih c h with h | h
      · exact Or.inl (List.mem_cons_of_mem _ h)
      · exact Or.inr h

theorem space_mem_collapseWS :
    ∀ l : List Char, ∀ c ∈ collapseWS l, pyIsSpace c = true → c = ' ' := by
  intro l
  induction l using collapseWS.induct with
  | case1 => intro c h; simp [collapseWS] at h
  | case2 c0 h0 =>
    intro c h _
    simp [collapseWS, h0] at h
    exact h
  | case3 c0 h0 =>
    intro c h hs
    simp [collapseWS, h0] at h
    rw [h] at hs
    exact absurd hs (by simp [h0])
  | case4 c0 d cs h1 h2 ih =>
    intro c h
    rw [collapseWS, if_pos h1, if_pos h2] at h
    exact ih c h
  | case5 c0 d cs h1 h2 ih =>
    intro c h hs
    rw [collapseWS, if_pos h1, if_neg h2] at h
    rcases List.mem_cons.mp h with h | h
    · exact h
    · exact ih c h hs
  | case6 c0 d cs h1 ih =>
    intro c h hs
    rw [collapseWS, if_neg h1] at h
    rcases List.mem_cons.mp h with h | h
    · rw [h] at hs; exact absurd hs (by simp [h1])
    · exact ih c h hs

theorem collapseWS_head?_nonspace (d : Char) (cs : List Char)
    (hd : ¬ pyIsSpace d = true) : (collapseWS (d :: cs)).head? = some d := by
  cases cs with
  | nil => simp [collapseWS, hd]
  | cons e cs2 => rw [collapseWS, if_neg hd]; rfl

theorem collapseWS_head?_space :
    ∀ (cs : List Char) (d : Char), pyIsSpace d = true →
      (collapseWS (d :: cs)).head? = some ' ' := by
  intro cs
  induction cs with
  | nil => intro d hd; simp [collapseWS, hd]
  | cons e cs2 ih =>
    intro d hd
    rw [collapseWS, if_pos hd]
    by_cases he : pyIsSpace e = true
    · rw [if_pos he]; exact ih e he
    · rw [if_neg he]; rfl

theorem collapseWS_noAdjSp : ∀ l : List Char, noAdjSp (collapseWS l) := by
  intro l
  induction l using collapseWS.induct with
  | case1 => exact List.chain'_nil
  | case2 c0 hs => simp [collapseWS, hs, noAdjSp]
  | case3 c0 hs => simp [collapseWS, hs, noAdjSp]
  | case4 c0 d cs h1 h2 ih => rw [collapseWS, if_pos h1, if_pos h2]; exact ih
  | case5 c0 d cs h1 h2 ih =>
    rw [collapseWS, if_pos h1, if_neg h2]
    refine List.chain'_cons'.mpr ⟨?_, ih⟩
    intro y hy
    rw [collapseWS_head?_nonspace d cs h2] at hy
    simp only [Option.mem_def, Option.some.injEq] at hy
    rw [← hy]
    intro hcon
    exact h2 hcon.2
  | case6 c0 d cs h1 ih =>
    rw [collapseWS, if_neg h1]
    refine List.chain'_cons'.mpr ⟨?_, ih⟩
    intro y _
    intro hcon
    exact h1 hcon.1

theorem collapseWS_eq_self :
    ∀ l : List Char, (∀ c ∈ l, pyIsSpace c = true → c = ' ') → noAdjSp l →
      collapseWS l = l := by
  intro l
  induction l using collapseWS.induct with
  | case1 => intro _ _; rfl
  | case2 c0 hs =>
    intro hsp _
    have := hsp c0 (by simp) hs
    simp [collapseWS, hs, this]
  | case3 c0 hs =>
    intro _ _
    simp [collapseWS, hs]
  | case4 c0 d cs h1 h2 ih =>
    intro hsp hadj
    exfalso
    exact (List.chain'_cons.mp hadj).1 ⟨h1, h2⟩
  | case5 c0 d cs h1 h2 ih =>
    intro hsp hadj
    rw [collapseWS, if_pos h1, if_neg h2]
    have hc0 : c0 = ' ' := hsp c0 (by simp) h1
    rw [ih (fun c hc hs => hsp c (List.mem_cons_of_mem _ hc) hs)
      (List.chain'_cons.mp hadj).2, hc0]
  | case6 c0 d cs h1 ih =>
    intro hsp hadj
    rw [collapseWS, if_neg h1,
      ih (fun c hc hs => hsp c (List.mem_cons_of_mem _ hc) hs)
        (List.chain'_cons.mp hadj).2]

theorem pyStripL_subset {l : List Char} : ∀ c ∈ pyStripL l, c ∈ l := by
  intro c hc
  exact (List.dropWhile_suffix pyIsSpace).subset
    ((List.rdropWhile_prefix pyIsSpace (lstripL l)).subset hc)

theorem pyStripL_noAdjSp {l : List Char} (h : noAdjSp l) : noAdjSp (pyStripL l) :=
  List.Chain'.prefix
    (List.Chain'.suffix h (List.dropWhile_suffix pyIsSpace))
    (List.rdropWhile_prefix pyIsSpace (lstripL l))

theorem pyStripL_idem (l : List Char) : pyStripL (pyStripL l) = pyStripL l := by
  unfold pyStripL rstripL lstripL
  have h1 : ((l.dropWhile pyIsSpace).rdropWhile pyIsSpace).dropWhile pyIsSpace =
      (l.dropWhile pyIsSpace).rdropWhile pyIsSpace := by
    apply dropWhile_eq_self_of_head?
    intro c hc
    rcases (List.rdropWhile_prefix pyIsSpace (l.dropWhile pyIsSpace)) with ⟨t, ht⟩
    cases hx : (l.dropWhile pyIsSpace).rdropWhile pyIsSpace with
    | nil => rw [hx] at hc; simp at hc
    | cons a s =>
      rw [hx] at hc
      simp only [List.head?_cons, Option.some.injEq] at hc
      apply head?_dropWhile (l := l)
      rw [← ht, hx, ← hc]
      rfl
  rw [h1, List.rdropWhile_idempotent]

theorem replaceSpecial_eq_self {l : List Char}
    (h : ∀ c ∈ l, (pyIsWordChar c || pyIsSpace c) = true) : replaceSpecial l = l := by
  unfold replaceSpecial
  induction l with
  | nil => rfl
  | cons a t ih =>
    simp only [List.map_cons, List.cons.injEq]
    constructor
    · rw [if_pos (h a (by simp))]
    · exact ih fun c hc => h c (List.mem_cons_of_mem _ hc)

theorem replaceSpecial_chars {l : List Char} :
    ∀ c ∈ replaceSpecial l,
      (pyIsWordChar c || pyIsSpace c) = true ∧
        (pyIsSpace c = true → c ∈ l ∨ c = ' ') := by
  intro c hc
  unfold replaceSpecial at hc
  rcases List.mem_map.mp hc with ⟨x, hx, hxc⟩
  by_cases hkeep : (pyIsWordChar x || pyIsSpace x) = true
  · rw [if_pos hkeep] at hxc
    rw [← hxc]
    exact ⟨hkeep, fun _ => Or.inl hx⟩
  · rw [if_neg hkeep] at hxc
    rw [← hxc]
    exact ⟨by decide, fun _ => Or.inr rfl⟩

/-- Every character of a cleaned text is a word character or the space
character proper. -/
theorem cleanL_chars (l : List Char) :
    ∀ c ∈ cleanL l,
      (pyIsWordChar c || pyIsSpace c) = true ∧ (pyIsSpace c = true → c = ' ') := by
  intro c hc
  unfold cleanL at hc
  rcases replaceSpecial_chars c hc with ⟨hkeep, hmem⟩
  refine ⟨hkeep, fun hs => ?_⟩
  rcases hmem hs with h | h
  · exact space_mem_collapseWS l c (pyStripL_subset c h) hs
  · exact h

/-- `cleanL` is a fixpoint on lists whose characters are word characters or
the space character: the shape every output of `cleanL` has. -/
theorem cleanL_fix (u : List Char)
    (hu : ∀ c ∈ u, (pyIsWordChar c || pyIsSpace c) = true ∧ (pyIsSpace c = true → c = ' ')) :
    cleanL (cleanL u) = cleanL u := by
  have hXsp : ∀ c ∈ collapseWS u, pyIsSpace c = true → c = ' ' :=
    space_mem_collapseWS u
  have hWsp : ∀ c ∈ pyStripL (collapseWS u), pyIsSpace c = true → c = ' ' :=
    fun c hc => hXsp c (pyStripL_subset c hc)
  have hWkeep : ∀ c ∈ pyStripL (collapseWS u), (pyIsWordChar c || pyIsSpace c) = true := by
    intro c hc
    rcases mem_collapseWS_of_mem u c (pyStripL_subset c hc) with h | h
    · exact (hu c h).1
    · rw [h]; decide
  have hWadj : noAdjSp (pyStripL (collapseWS u)) :=
    pyStripL_noAdjSp (collapseWS_noAdjSp u)
  have hclean : cleanL u = pyStripL (collapseWS u) := by
    unfold cleanL
    exact replaceSpecial_eq_self hWkeep
  rw [hclean]
  unfold cleanL
  rw [collapseWS_eq_self _ hWsp hWadj, pyStripL_idem]
  exact replaceSpecial_eq_self hWkeep

/-- C3 counterexample: `clean_text` is not idempotent.  On "a!!b" the first
application turns each "!" into a space giving "a  b" (two spaces), and the
second collapses them to "a b". -/
theorem clean_text_not_idempotent :
    TextProcessor.clean_text (TextProcessor.clean_text "a!!b") ≠
      TextProcessor.clean_text "a!!b" := by decide

theorem clean_text_as_cleanL (s : String) :
    TextProcessor.clean_text s = ⟨cleanL s.data⟩ := by
  unfold TextProcessor.clean_text
  by_cases h : s = ""
  · rw [if_pos h, h]; rfl
  · rw [if_neg h]

/-- C3 (corrected): `clean_text` is idempotent from the second application
on, although not in one step: for every text, applying it three times equals
applying it twice. -/
theorem clean_text_twice_fixpoint (s : String) :
    TextProcessor.clean_text (TextProcessor.clean_text (TextProcessor.clean_text s)) =
      TextProcessor.clean_text (TextProcessor.clean_text s) := by
  rw [clean_text_as_cleanL s, clean_text_as_cleanL, clean_text_as_cleanL]
  show String.mk (cleanL (cleanL (cleanL s.data))) = String.mk (cleanL (cleanL s.data))
  exact congrArg String.mk (cleanL_fix (cleanL s.data) (cleanL_chars s.data))

/-- C3 witness: the fixpoint equation evaluated at the concrete
counterexample input. -/
theorem clean_text_twice_fixpoint_witness :
    TextProcessor.clean_text (TextProcessor.clean_text (TextProcessor.clean_text "a!!b")) =
      TextProcessor.clean_text (TextProcessor.clean_text "a!!b") :=
  clean_text_twice_fixpoint "a!!b"

end CleanLemmas

/-! ### `TextProcessor.split_into_chunks` (claim C4)

The Python while loop is modelled with an explicit fuel parameter: `none`
means the loop has not reached an exit condition within `fuel` iterations.
The loop body is a faithful transcription of src/utils/text_utils.py lines
87 to 102; `start` stays non-negative inside the loop (it enters at 0 and
the `start <= 0` break guards every later entry), so it is carried as a
`Nat` while the break test `end - overlap <= 0` is taken in `Int` exactly
as Python computes it. -/

/-- Python `text.rfind(' ', start, stop)`: the greatest index in
`[start, stop)` holding a space, if any. -/
def rfindSpace (t : List Char) (start stop : Nat) : Option Nat :=
  ((List.range stop).filter fun i => decide (start ≤ i) && (t.getD i 'x' == ' ')).getLast?

namespace TextProcessor

/-- One `while start < len(text)` loop of `split_into_chunks`, unrolled on
fuel. -/
def chunkLoop (t : List Char) (max_chunk_size overlap : Nat) :
    Nat → Nat → List (List Char) → Option (List (List Char))
  | 0, _, _ => none
  | fuel + 1, start, chunks =>
    if start < t.length then
      let e0 := min (start + max_chunk_size) t.length
      let e :=
        if e0 < t.length then
          match rfindSpace t start e0 with
          | some last_space => if start < last_space then last_space else e0
          | none => e0
        else e0
      let chunk := pyStripL ((t.take e).drop start)
      let chunks2 := if chunk.isEmpty then chunks else chunks ++ [chunk]
      if (e : Int) - (overlap : Int) ≤ 0 then some chunks2
      else chunkLoop t max_chunk_size overlap fuel (e - overlap) chunks2
    else some chunks

/-- `TextProcessor.split_into_chunks` (src/utils/text_utils.py lines 75 to
104), fuel-indexed: `some chunks` when the loop exits within `fuel`
iterations. -/
def split_into_chunks (fuel : Nat) (text : String) (max_chunk_size : Nat := 1000)
    (overlap : Nat := 100) : Option (List String) :=
  if text = "" then some []
  else if text.data.length ≤ max_chunk_size then some [text]
  else (chunkLoop text.data max_chunk_size overlap fuel 0 []).map
    (List.map fun l => String.mk l)

end TextProcessor

section ChunkLemmas

open TextProcessor

/-- From start position 1 on the text "abcde fghij" with window 5 and
overlap 4 the loop body lowers the window end to the space at index 5 and
recomputes `start = 5 - 4 = 1`: the state repeats and no exit condition is
ever reached, whatever the fuel. -/
theorem chunkLoop_stuck_at_one :
    ∀ (fuel : Nat) (chunks : List (List Char)),
      chunkLoop ("abcde fghij".data) 5 4 fuel 1 chunks = none := by
  intro fuel
  induction fuel with
  | zero => intro chunks; rfl
  | succ n ih =>
    intro chunks
    show chunkLoop ("abcde fghij".data) 5 4 n 1 (chunks ++ [['b', 'c', 'd', 'e']]) = none
    exact ih (chunks ++ [['b', 'c', 'd', 'e']])

/-- C4 (code bug): `split_into_chunks` does not terminate on the text
"abcde fghij" with `max_chunk_size = 5` and `overlap = 4` — the claimed
guard `start <= 0` never fires because the recomputed start position is
stuck at 1, so no amount of fuel makes the loop finish.  (Python runs this
very loop forever.) -/
theorem split_into_chunks_nonterminating :
    ∀ fuel : Nat, split_into_chunks fuel "abcde fghij" 5 4 = none := by
  intro fuel
  cases fuel with
  | zero => rfl
  | succ n =>
    show (chunkLoop ("abcde fghij".data) 5 4 n 1 [['a', 'b', 'c', 'd', 'e']]).map
      (List.map fun l => String.mk l) = none
    rw [chunkLoop_stuck_at_one n]
    rfl

end ChunkLemmas

/-! ### Data model (src/models/document.py) and page extraction (claim C8)

`Document.created_at` defaults to the wall-clock construction time in
Python; the clock lies outside the pure model, so the field is carried as
an `Option Nat` and the default is `none`.  The claims under study never
inspect it. -/

structure Document where
  title : String
  content : String
  page_number : Nat
  category : String
  file_path : String
  created_at : Option Nat := none
deriving DecidableEq

namespace PDFProcessor

/-- `PDFProcessor._generate_title` (src/services/pdf_processor.py lines 79
to 93): first line if it is a meaningful title, else the first 50
characters. -/
def generate_title (text : String) (page_num : Nat) : String :=
  if text = "" then "페이지 " ++ toString page_num
  else
    let first_line := pyStrip ⟨text.data.takeWhile fun c => c ≠ '\n'⟩
    if first_line ≠ "" ∧ 5 < first_line.data.length then
      if 100 < first_line.data.length then ⟨first_line.data.take 100⟩ ++ "..."
      else first_line
    else
      let title := pyStrip ⟨text.data.take 50⟩
      if 50 < text.data.length then title ++ "..." else title

/-- The per-page body of the extraction loop (src/services/pdf_processor.py
lines 38 to 70).  A page is modelled as the result of the external
extractor's `page.extract_text()`: `none` when no text could be extracted
(which the loop treats exactly like a per-page failure: skip, continue). -/
def extract_go (file_path : String) : Nat → List (Option String) → List Document
  | _, [] => []
  | page_num, none :: pages => extract_go file_path (page_num + 1) pages
  | page_num, some text :: pages =>
    (if text ≠ "" ∧ pyStrip text ≠ "" then
       if TextProcessor.clean_text text ≠ "" then
         [{ title := generate_title (TextProcessor.clean_text text) page_num,
            content := TextProcessor.clean_text text,
            page_number := page_num,
            category := TextProcessor.categorize_content (TextProcessor.clean_text text),
            file_path := file_path }]
       else []
     else []) ++ extract_go file_path (page_num + 1) pages

/-- `PDFProcessor.extract_text_from_pdf` (src/services/pdf_processor.py
lines 24 to 77) past the file-existence guard: pages are enumerated from 1
in order; a page with absent or blank text is skipped and the loop
continues. -/
def extract_text_from_pdf (pages : List (Option String)) (file_path : String) :
    List Document :=
  extract_go file_path 1 pages

end PDFProcessor

section ExtractLemmas

open PDFProcessor

theorem extract_go_mem (fp : String) :
    ∀ (pages : List (Option String)) (n : Nat) (d : Document),
      d ∈ extract_go fp n pages →
        n ≤ d.page_number ∧ d.page_number < n + pages.length ∧ d.content ≠ "" ∧
          ∃ t, pages.get? (d.page_number - n) = some (some t) ∧ t ≠ "" ∧ pyStrip t ≠ "" := by
  intro pages
  induction pages with
  | nil => intro n d h; simp [extract_go] at h
  | cons page pages ih =>
    intro n d h
    have next : d ∈ extract_go fp (n + 1) pages →
        n ≤ d.page_number ∧ d.page_number < n + (page :: pages).length ∧ d.content ≠ "" ∧
          ∃ t, (page :: pages).get? (d.page_number - n) = some (some t) ∧
            t ≠ "" ∧ pyStrip t ≠ "" := by
      intro h
      rcases ih (n + 1) d h with ⟨h1, h2, h3, t, h4, h5⟩
      refine ⟨by omega, by simp only [List.length_cons]; omega, h3, t, ?_, h5⟩
      have heq : d.page_number - n = (d.page_number - (n + 1)) + 1 := by omega
      rw [heq]
      simpa using h4
    cases page with
    | none =>
      rw [extract_go] at h
      exact next h
    | some text =>
      rw [extract_go] at h
      rcases List.mem_append.mp h with h | h
      · by_cases hg : text ≠ "" ∧ pyStrip text ≠ ""
        · rw [if_pos hg] at h
          by_cases hc : TextProcessor.clean_text text ≠ ""
          · rw [if_pos hc] at h
            rcases List.mem_singleton.mp h with rfl
            refine ⟨Nat.le_refl n, by simp only [List.length_cons]; omega, hc, text, ?_, hg⟩
            rw [Nat.sub_self]
            rfl
          · rw [if_neg hc] at h; simp at h
        · rw [if_neg hg] at h; simp at h
      · exact next h

theorem extract_go_chain (fp : String) :
    ∀ (pages : List (Option String)) (n : Nat),
      List.Chain' (fun a b => a < b) ((extract_go fp n pages).map Document.page_number) := by
  intro pages
  induction pages with
  | nil => intro n; simp [extract_go]
  | cons page pages ih =>
    intro n
    have hrest := ih (n + 1)
    have hhead : ∀ y ∈ ((extract_go fp (n + 1) pages).map Document.page_number).head?, n < y := by
      intro y hy
      have hmem : y ∈ (extract_go fp (n + 1) pages).map Document.page_number :=
        List.mem_of_mem_head? hy
      rcases List.mem_map.mp hmem with ⟨d, hd, rfl⟩
      have := (extract_go_mem fp pages (n + 1) d hd).1
      omega
    cases page with
    | none => rw [extract_go]; exact hrest
    | some text =>
      rw [extract_go, List.map_append]
      by_cases hg : text ≠ "" ∧ pyStrip text ≠ ""
      · rw [if_pos hg]
        by_cases hc : TextProcessor.clean_text text ≠ ""
        · rw [if_pos hc]
          simp only [List.map_cons, List.map_nil, List.singleton_append]
          exact List.chain'_cons'.mpr ⟨hhead, hrest⟩
        · rw [if_neg hc]; simpa using hrest
      · rw [if_neg hg]; simpa using hrest

/-- C8 (confirmed): extraction produces records only for pages whose
extracted text is present and non-blank, in strictly ascending page order
with the original 1-based page numbers preserved (a skipped page leaves a
gap and aborts nothing), and every produced record has non-empty content. -/
theorem extract_text_from_pdf_sound (pages : List (Option String)) (fp : String) :
    List.Chain' (fun a b => a < b)
      ((extract_text_from_pdf pages fp).map Document.page_number) ∧
    List.Forall
      (fun d => d.content ≠ "" ∧ 1 ≤ d.page_number ∧ d.page_number ≤ pages.length ∧
        ∃ t, pages.get? (d.page_number - 1) = some (some t) ∧ t ≠ "" ∧ pyStrip t ≠ "")
      (extract_text_from_pdf pages fp) := by
  constructor
  · exact extract_go_chain fp pages 1
  · rw [List.forall_iff_forall_mem]
    intro d hd
    rcases extract_go_mem fp pages 1 d hd with ⟨h1, h2, h3, t, h4, h5⟩
    exact ⟨h3, h1, by omega, t, h4, h5⟩

/-- C8 witness: the 3-page scenario of the specification — page 2 has no
extractable text, so exactly the records for pages 1 and 3 are produced,
with their numbers preserved. -/
theorem extract_text_from_pdf_sound_witness :
    List.Chain' (fun a b => a < b)
      ((extract_text_from_pdf [some "스토킹 처벌법 제1조", none, some "도박 금지 조항"]
          "laws.pdf").map Document.page_number) ∧
      (extract_text_from_pdf [some "스토킹 처벌법 제1조", none, some "도박 금지 조항"]
          "laws.pdf").map Document.page_number = [1, 3] :=
  ⟨(extract_text_from_pdf_sound [some "스토킹 처벌법 제1조", none, some "도박 금지 조항"]
      "laws.pdf").1, by decide⟩

end ExtractLemmas

/-! ### Query builder and search service (claims C1, C6, C7)

The external index service is out of scope: a connected client is modelled
as a function from the built request to the hit list of the engine's
response, and a disconnected client (`self.es_client.client` being `None`)
as `none`.  A search call returns the decoded results together with the
request it issued, `none` when no request reached the engine. -/

/-- One scoring or filter clause of the request body built in
`search_with_advanced_analysis`. -/
inductive QueryClause where
  | match_phrase (field query : String) (boost : Rat)
  | matchClause (field query : String) (boost : Rat) (op : Option String)
  | fuzzyClause (field value fuzziness : String) (boost : Rat)
  | termClause (field value : String)
deriving DecidableEq

structure HighlightField where
  pre_tag : String
  post_tag : String
  fragment_size : Nat
  number_of_fragments : Nat
deriving DecidableEq

structure SearchQuery where
  should : List QueryClause
  minimum_should_match : Nat
  filter : List QueryClause
  highlight : List (String × HighlightField)
  size : Nat
deriving DecidableEq

/-- One hit of an engine response: the stored `_source` fields (each read
with `.get(key, default)`, hence optional), the score, and the optional
`highlight` section (`hit.get('highlight', {})`). -/
structure HitSource where
  title : Option String
  content : Option String
  page_number : Option Nat
  category : Option String
  file_path : Option String
deriving DecidableEq

structure Hit where
  source : HitSource
  score : Rat
  highlight : Option (List (String × List String))
deriving DecidableEq

/-- The decoded result record (src/models/document.py lines 51 to 65): the
dataclass `SearchResult` declares exactly the fields `document`, `score`
and `highlights`.  The Python default `highlights=None` and an empty
mapping are both modelled as `[]`; no claim distinguishes them. -/
structure SearchResult where
  document : Document
  score : Rat
  highlights : List (String × List String)
deriving DecidableEq

namespace SearchService

/-- The request body built by `search_with_advanced_analysis`
(src/services/search_service.py lines 248 to 317): four should clauses
gated by `minimum_should_match: 1`, the highlight section, and — only when
`category` is truthy — a term filter on `category`. -/
def buildAdvancedQuery (query : String) (size : Nat) (category : Option String) :
    SearchQuery :=
  let base : SearchQuery :=
    { should :=
        [QueryClause.match_phrase "content" query 3.0,
         QueryClause.matchClause "title" query 2.5 (some "and"),
         QueryClause.matchClause "content" query 1.0 none,
         QueryClause.fuzzyClause "content" query "AUTO" 0.5],
      minimum_should_match := 1,
      filter := [],
      highlight :=
        [("title", { pre_tag := "<mark>", post_tag := "</mark>",
                     fragment_size := 100, number_of_fragments := 1 }),
         ("content", { pre_tag := "<mark>", post_tag := "</mark>",
                       fragment_size := 150, number_of_fragments := 3 })],
      size := size }
  match category with
  | some c => if c = "" then base else { base with filter := [QueryClause.termClause "category" c] }
  | none => base

/-- Decoding of one hit (src/services/search_service.py lines 331 to 345):
`Document` from the `_source` fields with the `.get` defaults of the code,
then `SearchResult` with `highlights=hit.get('highlight', {})` — verbatim,
with no fallback of any kind. -/
def decodeHit (hit : Hit) : SearchResult :=
  { document :=
      { title := hit.source.title.getD "",
        content := hit.source.content.getD "",
        page_number := hit.source.page_number.getD 0,
        category := hit.source.category.getD "",
        file_path := hit.source.file_path.getD "" },
    score := hit.score,
    highlights := hit.highlight.getD [] }

/-- `SearchService.search_with_advanced_analysis`
(src/services/search_service.py lines 242 to 352).  The function builds the
request unconditionally, returns `[]` without issuing it when the client is
not connected, and otherwise issues it and decodes every hit of the
response.  The second component records the request issued to the engine
(`none`: no external call was made). -/
def search_with_advanced_analysis (query : String) (size : Nat)
    (category : Option String) (client : Option (SearchQuery → List Hit)) :
    List SearchResult × Option SearchQuery :=
  let q := buildAdvancedQuery query size category
  match client with
  | none => ([], none)
  | some engine => ((engine q).map decodeHit, some q)

/-- `SearchService.search` (src/services/search_service.py lines 354 to
356): a one-line delegation to `search_with_advanced_analysis`. -/
def search (query : String) (size : Nat) (category : Option String)
    (client : Option (SearchQuery → List Hit)) :
    List SearchResult × Option SearchQuery :=
  search_with_advanced_analysis query size category client

end SearchService

section SearchLemmas

open SearchService

/-- An engine that never returns a hit, for the concrete counterexamples. -/
def emptyEngine : SearchQuery → List Hit := fun _ => []

/-- C1 counterexample: `search ""` with a connected client issues a request
to the engine — the code has no guard on the cleaned query text, so the
claim "no request issued for a query that cleans to empty" is false. -/
theorem search_empty_query_issues_request :
    (SearchService.search "" 10 none (some emptyEngine)).2 =
      some (buildAdvancedQuery "" 10 none) := rfl

/-- C1 (corrected): the code performs no emptiness check anywhere: for
every query — the empty one included — it builds the same four-clause
request; with a connected client the request is always issued and the
response decoded, and the empty-result-without-external-call behaviour
occurs only when the client is not connected. -/
theorem search_no_empty_query_guard (query : String) (size : Nat)
    (category : Option String) (engine : SearchQuery → List Hit) :
    SearchService.search query size category (some engine) =
        ((engine (buildAdvancedQuery query size category)).map decodeHit,
          some (buildAdvancedQuery query size category)) ∧
      SearchService.search query size category none = ([], none) :=
  ⟨rfl, rfl⟩

/-- C1 witness: the amended statement at the empty query. -/
theorem search_no_empty_query_guard_witness :
    SearchService.search "" 10 none (some emptyEngine) =
        ((emptyEngine (buildAdvancedQuery "" 10 none)).map decodeHit,
          some (buildAdvancedQuery "" 10 none)) ∧
      SearchService.search "" 10 none none = ([], none) :=
  search_no_empty_query_guard "" 10 none emptyEngine

/-- C7 (confirmed): the built request carries exactly the four disjunctive
scoring clauses with boosts 3.0, 2.5 (title, all terms required), 1.0 and
0.5 (fuzzy), gated by at-least-one-must-match; a non-empty category filter
adds one exact-match term filter while the scoring clauses, the highlight
section and the size are identical to the unfiltered request. -/
theorem buildAdvancedQuery_structure (query : String) (size : Nat) (c : String)
    (_hq : query ≠ "") (hc : c ≠ "") :
    (buildAdvancedQuery query size (some c)).should =
        [QueryClause.match_phrase "content" query 3.0,
         QueryClause.matchClause "title" query 2.5 (some "and"),
         QueryClause.matchClause "content" query 1.0 none,
         QueryClause.fuzzyClause "content" query "AUTO" 0.5] ∧
      (buildAdvancedQuery query size (some c)).minimum_should_match = 1 ∧
      (buildAdvancedQuery query size (some c)).filter =
        [QueryClause.termClause "category" c] ∧
      (buildAdvancedQuery query size none).filter = [] ∧
      (buildAdvancedQuery query size (some c)).should =
        (buildAdvancedQuery query size none).should ∧
      (buildAdvancedQuery query size (some c)).highlight =
        (buildAdvancedQuery query size none).highlight ∧
      (buildAdvancedQuery query size (some c)).size =
        (buildAdvancedQuery query size none).size := by
  simp only [buildAdvancedQuery]
  rw [if_neg hc]
  simp

/-- C7 witness: the structure theorem at a concrete query and category. -/
theorem buildAdvancedQuery_structure_witness :
    (buildAdvancedQuery "스토킹" 10 (some "기타")).should =
        [QueryClause.match_phrase "content" "스토킹" 3.0,
         QueryClause.matchClause "title" "스토킹" 2.5 (some "and"),
         QueryClause.matchClause "content" "스토킹" 1.0 none,
         QueryClause.fuzzyClause "content" "스토킹" "AUTO" 0.5] ∧
      (buildAdvancedQuery "스토킹" 10 (some "기타")).minimum_should_match = 1 ∧
      (buildAdvancedQuery "스토킹" 10 (some "기타")).filter =
        [QueryClause.termClause "category" "기타"] ∧
      (buildAdvancedQuery "스토킹" 10 none).filter = [] ∧
      (buildAdvancedQuery "스토킹" 10 (some "기타")).should =
        (buildAdvancedQuery "스토킹" 10 none).should ∧
      (buildAdvancedQuery "스토킹" 10 (some "기타")).highlight =
        (buildAdvancedQuery "스토킹" 10 none).highlight ∧
      (buildAdvancedQuery "스토킹" 10 (some "기타")).size =
        (buildAdvancedQuery "스토킹" 10 none).size :=
  buildAdvancedQuery_structure "스토킹" 10 "기타" (by decide) (by decide)

/-- A concrete hit whose engine response carries no highlight section. -/
def hitWithoutHighlight : Hit :=
  { source :=
      { title := some "제목", content := some "본문 내용", page_number := some 1,
        category := some "스토킹", file_path := some "laws.pdf" },
    score := 1,
    highlight := none }

def oneHitEngine : SearchQuery → List Hit := fun _ => [hitWithoutHighlight]

/-- C6 counterexample: a hit for which the engine returned no highlight
fragments decodes to a `SearchResult` whose highlight mapping is empty —
no fallback to `TextProcessor.highlight_text` happens anywhere in the
decoding, so this result carries no highlight string at all. -/
theorem decoded_result_without_highlight :
    (SearchService.search "스토킹" 10 none (some oneHitEngine)).1.map
        SearchResult.highlights = [[]] := rfl

/-- C6 (corrected): every decoded result carries exactly the engine's
highlight mapping, verbatim (`hit.get('highlight', {})`), which is empty
whenever the engine returned no fragments; the decoder never substitutes a
computed excerpt. -/
theorem decode_highlights_verbatim (query : String) (size : Nat)
    (category : Option String) (engine : SearchQuery → List Hit) :
    (SearchService.search query size category (some engine)).1.map
        SearchResult.highlights =
      (engine (buildAdvancedQuery query size category)).map
        (fun h => h.highlight.getD []) := by
  show ((engine (buildAdvancedQuery query size category)).map decodeHit).map
      SearchResult.highlights =
    (engine (buildAdvancedQuery query size category)).map
      (fun h => h.highlight.getD [])
  rw [List.map_map]
  rfl

/-- C6 witness: the verbatim-highlights equation at the concrete engine
returning one fragment-free hit. -/
theorem decode_highlights_verbatim_witness :
    (SearchService.search "스토킹" 10 none (some oneHitEngine)).1.map
        SearchResult.highlights =
      (oneHitEngine (buildAdvancedQuery "스토킹" 10 none)).map
        (fun h => h.highlight.getD []) :=
  decode_highlights_verbatim "스토킹" 10 none oneHitEngine

end SearchLemmas

/-! ### Explanation decoder (claim C5)

The explanation tree of an engine response is a nested dictionary: an
optional numeric `value`, an optional `description` string, and an optional
`details` entry that is either a list of child nodes or one nested
dictionary.  A missing key and a key with value `None` both format the same
way in the failing branch, so both are modelled as `none`.  The decoder of
src/main.py collects printed lines; a Python exception is an
`Except.error` with the exception text. -/

inductive ENode where
  | node (value : Option Rat) (description : Option String)
      (details : Option (List ENode ⊕ ENode))

def ENode.value : ENode → Option Rat
  | .node v _ _ => v

def ENode.description : ENode → Option String
  | .node _ d _ => d

def ENode.details : ENode → Option (List ENode ⊕ ENode)
  | .node _ _ dt => dt

namespace LegalDocumentSearchApp

/-- Python `"  " * indent`. -/
def dupIndent : Nat → String
  | 0 => ""
  | n + 1 => "  " ++ dupIndent n

def pad4 (k : Nat) : String :=
  if k < 10 then "000" ++ toString k
  else if k < 100 then "00" ++ toString k
  else if k < 1000 then "0" ++ toString k
  else toString k

/-- A fixed-four-decimals rendering of a rational, standing in for Python's
`f"{value:.4f}"` on a float (the digit string is truncated rather than
half-even rounded; no claim inspects the digits, only whether formatting
succeeds). -/
def formatF4 (q : Rat) : String :=
  let q4 := |q| * 10000
  let m := (q4.num / (q4.den : Int)).toNat
  (if q < 0 then "-" else "") ++ toString (m / 10000) ++ "." ++ pad4 (m % 10000)

/-- `f"{value:.4f}"` where `value = explanation.get('value', 'N/A')`: a
present numeric value formats, an absent one leaves the default string
"N/A" in place and the format specifier `.4f` raises. -/
def fmtValue : Option Rat → Except String String
  | some v => Except.ok (formatF4 v)
  | none =>
    Except.error "ValueError: Unknown format code \x27f\x27 for object of type \x27str\x27"

/-- Python `description.rstrip(':')`. -/
def rstripColons (s : String) : String :=
  ⟨(s.data.reverse.dropWhile fun c => c = ':').reverse⟩

open TextProcessor in
/-- `re.search(r"weight\(([^)]+)\)", s)`: at the leftmost position where
"weight(" is followed by at least one character other than the closing
parenthesis and then by one, the captured group. -/
def weightCapture : List Char → Option (List Char)
  | [] => none
  | c :: t =>
    if startsWithL ("weight(".data) (c :: t) then
      let rest := (c :: t).drop 7
      let cap := rest.takeWhile fun x => x ≠ ')'
      if cap ≠ [] ∧ cap.length < rest.length then some cap
      else weightCapture t
    else weightCapture t

open TextProcessor in
/-- `re.search(r"freq=(\d+\.?\d*)", s)`: digits after the first "freq="
followed by at least one digit, with an optional decimal point and further
digits. -/
def freqCapture : List Char → Option (List Char)
  | [] => none
  | c :: t =>
    if startsWithL ("freq=".data) (c :: t) then
      let rest := (c :: t).drop 5
      let d1 := rest.takeWhile Char.isDigit
      if d1 = [] then freqCapture t
      else
        match rest.drop d1.length with
        | '.' :: rest3 => some (d1 ++ ['.'] ++ rest3.takeWhile Char.isDigit)
        | _ => some d1
    else freqCapture t

open TextProcessor in
def dropToAfterFirst (sep : List Char) : List Char → List Char
  | [] => []
  | c :: t =>
    if startsWithL sep (c :: t) then (c :: t).drop sep.length
    else dropToAfterFirst sep t

open TextProcessor in
def takeUntilSub (sep : List Char) : List Char → List Char
  | [] => []
  | c :: t => if startsWithL sep (c :: t) then [] else c :: takeUntilSub sep t

/-- `s.split(sep)[1]`: the segment strictly between the first occurrence of
`sep` and the following one (or the end). -/
def segAfterFirst (l sep : List Char) : List Char :=
  takeUntilSub sep (dropToAfterFirst sep l)

def splitWSAux : List Char → List Char → List (List Char)
  | [], cur => if cur = [] then [] else [cur.reverse]
  | c :: t, cur =>
    if pyIsSpace c then
      if cur = [] then splitWSAux t [] else cur.reverse :: splitWSAux t []
    else splitWSAux t (c :: cur)

/-- Python `s.split()` with no separator: whitespace runs split, empties
dropped. -/
def pySplitWS (l : List Char) : List (List Char) := splitWSAux l []

/-- `segment.split()[0]`: raises `IndexError` when the segment holds no
token. -/
def firstToken (seg : List Char) : Except String (List Char) :=
  match pySplitWS seg with
  | tok :: _ => Except.ok tok
  | [] => Except.error "IndexError: list index out of range"

/-- The ordered substitution table of
`_translate_explanation_description`. -/
def simple_translations : List (String × String) :=
  [("sum of", "필드 점수 합계"), ("max of", "최고 점수 선택"), ("min of", "최소값"),
   ("product of", "곱셈"), ("fieldWeight", "필드 가중치"), ("tf", "단어 빈도"),
   ("idf", "역문서 빈도"), ("norm", "정규화"), ("boost", "부스트"), ("match", "매칭")]

open TextProcessor in
def translateSimple (cleaned : String) : String :=
  match simple_translations.find? fun p => containsSub p.1 cleaned with
  | some p => p.2
  | none => cleaned

def techPatterns : List String := ["perfieldsimilarity", "result of", "computed as"]

open TextProcessor in
def translateTail (cleaned : String) : Except String String :=
  let result := translateSimple cleaned
  if techPatterns.any fun t => containsSub t (lowerS cleaned) then
    Except.ok
      (if containsSub "title" cleaned then "제목 매칭 점수"
       else if containsSub "content" cleaned then "내용 매칭 점수"
       else "매칭 점수")
  else Except.ok (if result = cleaned then "점수 계산" else result)

open TextProcessor in
def translateScore (cleaned : String) : Except String String :=
  if containsSub "score(" cleaned ∧ containsSub "freq=" cleaned then
    match freqCapture cleaned.data with
    | some freq => Except.ok ("점수 계산 (빈도: " ++ String.mk freq ++ ")")
    | none => translateTail cleaned
  else translateTail cleaned

open TextProcessor in
/-- `LegalDocumentSearchApp._translate_explanation_description`
(src/main.py lines 223 to 281): the ordered rule table — weight pattern,
score/frequency pattern, fixed substitution table, technical-similarity
patterns, fallback "점수 계산".  The only failing path is the token
extraction `split(...)[1].split()[0]` when the text after the field marker
holds no token. -/
def translate_explanation_description (description : String) :
    Except String String :=
  if description = "" then Except.ok ""
  else
    let cleaned := rstripColons description
    match weightCapture cleaned.data with
    | some field_info =>
      if containsSubL ("title:".data) field_info then
        (firstToken (segAfterFirst field_info ("title:".data))).map
          fun tok => "제목 필드 가중치 (\x27" ++ String.mk tok ++ "\x27)"
      else if containsSubL ("content:".data) field_info then
        (firstToken (segAfterFirst field_info ("content:".data))).map
          fun tok => "내용 필드 가중치 (\x27" ++ String.mk tok ++ "\x27)"
      else translateScore cleaned
    | none => translateScore cleaned

/-- The sort key `x.get('value', 0)` of the top-4 selection. -/
def sortKey (n : ENode) : Rat := n.value.getD 0

/-- Stable descending insertion: an element goes after every earlier
element whose key is at least its own, which is precisely the order Python's
stable `sorted(..., reverse=True)` produces. -/
def insertDesc (x : ENode) : List ENode → List ENode
  | [] => [x]
  | y :: ys => if sortKey x ≤ sortKey y then y :: insertDesc x ys else x :: y :: ys

def stableSortDesc (l : List ENode) : List ENode :=
  l.foldl (fun acc x => insertDesc x acc) []

open TextProcessor in
/-- `LegalDocumentSearchApp._determine_field_name` (src/main.py lines 283
to 303).  When `details` is a non-empty dictionary rather than a list,
Python's `details[0]` raises `KeyError`. -/
def determine_field_name (detail : ENode) : Except String String :=
  match detail.details with
  | none => Except.ok "알 수 없는 필드"
  | some (Sum.inl []) => Except.ok "알 수 없는 필드"
  | some (Sum.inl (first :: _)) =>
    if containsSub "title:" (lowerS (first.description.getD "")) then Except.ok "제목 필드"
    else if containsSub "content:" (lowerS (first.description.getD "")) then Except.ok "내용 필드"
    else Except.ok "알 수 없는 필드"
  | some (Sum.inr _) => Except.error "KeyError: 0"

open TextProcessor in
/-- `LegalDocumentSearchApp._print_explanation_recursive` (src/main.py
lines 163 to 221), fuel-indexed to satisfy the termination checker: every
recursive call raises `indent` by at least one and the depth guard returns
at `indent > 4`, so from any starting indent the recursion is less than six
calls deep and a fuel of 6 never runs out before the guard fires — the
wrapper below fixes that fuel.  Collected: the lines printed, in print
order; an uncaught Python exception is the error case. -/
def renderFuel : Nat → ENode → Nat → Except String (List String)
  | 0, _, _ => Except.ok []
  | fuel + 1, explanation, indent =>
    if 4 < indent then Except.ok []
    else
      let indent_str := dupIndent indent
      let description := explanation.description.getD ""
      do
      let korean_desc ← translate_explanation_description description
      let head_lines ←
        if indent = 1 then do
          let fv ← fmtValue explanation.value
          pure [indent_str ++ "- " ++ korean_desc ++ ": " ++ fv]
        else if korean_desc ≠ "" ∧ korean_desc ≠ "점수 계산" then do
          let fv ← fmtValue explanation.value
          pure [indent_str ++ "• " ++ korean_desc ++ ": " ++ fv]
        else pure []
      let child_lines ←
        match explanation.details with
        | none => pure []
        | some (Sum.inl []) => pure []
        | some (Sum.inl (d0 :: ds)) =>
          let sorted_details := (stableSortDesc (d0 :: ds)).take 4
          if containsSub "sum of" (lowerS description) then
            (sorted_details.mapM fun d => renderFuel fuel d (indent + 1)).map List.flatten
          else if containsSub "max of" (lowerS description) then
            (sorted_details.mapM fun d =>
              if containsSub "sum of" (lowerS (d.description.getD "")) then do
                let field_name ← determine_field_name d
                let sub ← renderFuel fuel d (indent + 2)
                pure ((indent_str ++ "  [" ++ field_name ++ "]") :: sub)
              else renderFuel fuel d (indent + 1)).map List.flatten
          else
            (sorted_details.mapM fun d => renderFuel fuel d (indent + 1)).map List.flatten
        | some (Sum.inr d) => renderFuel fuel d (indent + 1)
      pure (head_lines ++ child_lines)

/-- The decoder as the application calls it (`_print_explanation` starts
the recursion at indent 1). -/
def print_explanation_recursive (explanation : ENode) (indent : Nat) :
    Except String (List String) :=
  renderFuel 6 explanation indent

end LegalDocumentSearchApp

section ExplanationLemmas

open LegalDocumentSearchApp

/-- C5 (code bug): a top-level explanation node carrying a description but
no `value` key does not render "N/A" — the default `'N/A'` string meets the
format specifier `.4f` and raises `ValueError` (which `_print_explanation`
then catches, printing an error line instead of the attribution the claim
promises). -/
theorem print_explanation_missing_value_raises :
    print_explanation_recursive (ENode.node none (some "sum of:") none) 1 =
      Except.error
        "ValueError: Unknown format code \x27f\x27 for object of type \x27str\x27" := rfl

end ExplanationLemmas

/-! ### `ElasticsearchClient.search` result decoding (claim C10)

`SearchResult` (src/models/document.py lines 51 to 65) is a dataclass with
exactly the fields `document`, `score` and `highlights`; calling its
generated `__init__` with any other keyword raises `TypeError`.  The
keyword-argument call is modelled by a tagged argument list checked against
the declared field names, exactly as the dataclass machinery checks it. -/

/-- The `_source` dictionary of a hit as `Document.from_dict` (src/models/
document.py lines 35 to 49) requires it: the five record fields present
(`data['title']` and friends index unconditionally), `created_at`
optional. -/
structure EsSource where
  title : String
  content : String
  page_number : Nat
  category : String
  file_path : String
  created_at : Option Nat
deriving DecidableEq

/-- `Document.from_dict(hit['_source'])`.  The timestamp text is outside
the pure model and carried through as the optional field itself. -/
def Document.from_dict (s : EsSource) : Document :=
  { title := s.title, content := s.content, page_number := s.page_number,
    category := s.category, file_path := s.file_path, created_at := s.created_at }

/-- One hit as `ElasticsearchClient.search` reads it: `_source`, `_score`,
optional `highlight`, optional `_explanation` (the `.get` defaults of the
code fill the absent ones). -/
structure EsHit where
  source : EsSource
  score : Rat
  highlight : Option (List (String × List String))
  explanation : Option ENode

/-- The field names the `SearchResult` dataclass declares. -/
def searchResultFields : List String := ["document", "score", "highlights"]

/-- One keyword argument of a `SearchResult(...)` call. -/
inductive SRArg where
  | document (d : Document)
  | score (s : Rat)
  | highlights (h : List (String × List String))
  | explanation (e : Option ENode)

def SRArg.name : SRArg → String
  | .document _ => "document"
  | .score _ => "score"
  | .highlights _ => "highlights"
  | .explanation _ => "explanation"

def findDocument : List SRArg → Option Document
  | [] => none
  | SRArg.document d :: _ => some d
  | _ :: t => findDocument t

def findScore : List SRArg → Option Rat
  | [] => none
  | SRArg.score s :: _ => some s
  | _ :: t => findScore t

def findHighlights : List SRArg → Option (List (String × List String))
  | [] => none
  | SRArg.highlights h :: _ => some h
  | _ :: t => findHighlights t

/-- The generated `SearchResult.__init__` called with keyword arguments: a
keyword outside the declared field set raises `TypeError`; otherwise the
declared fields are filled (`highlights` defaulting to its dataclass
default). -/
def SearchResult.mk_kwargs (args : List SRArg) : Except String SearchResult :=
  if args.all fun a => searchResultFields.contains a.name then
    match findDocument args, findScore args with
    | some d, some s =>
      Except.ok { document := d, score := s, highlights := (findHighlights args).getD [] }
    | _, _ => Except.error "TypeError: missing required argument"
  else Except.error "TypeError: __init__ got an unexpected keyword argument"

namespace ElasticsearchClient

/-- The per-hit decoding loop of `ElasticsearchClient.search`
(src/services/elasticsearch_client.py lines 190 to 205): each hit becomes a
`SearchResult(document=..., score=..., highlights=..., explanation=...)`
call — with the keyword `explanation` that the dataclass does not
declare. -/
def decode_hits (hits : List EsHit) : Except String (List SearchResult) :=
  hits.mapM fun hit =>
    SearchResult.mk_kwargs
      [SRArg.document (Document.from_dict hit.source),
       SRArg.score hit.score,
       SRArg.highlights (hit.highlight.getD []),
       SRArg.explanation hit.explanation]

/-- `ElasticsearchClient.search` after the engine responded
(src/services/elasticsearch_client.py lines 139 to 209): the decoding loop
runs under `try`, and `except Exception` returns the empty list. -/
def search (hits : List EsHit) : List SearchResult :=
  match decode_hits hits with
  | Except.ok results => results
  | Except.error _ => []

end ElasticsearchClient

section EsClientLemmas

/-- C10 (confirmed): for every engine response with at least one hit the
decoding of the first hit raises `TypeError` — `explanation` is not a field
of the `SearchResult` dataclass — and the surrounding handler turns the
whole call into the empty result list. -/
theorem es_client_search_returns_empty (hits : List EsHit) (h : hits ≠ []) :
    ElasticsearchClient.decode_hits hits =
        Except.error "TypeError: __init__ got an unexpected keyword argument" ∧
      ElasticsearchClient.search hits = [] := by
  cases hits with
  | nil => exact absurd rfl h
  | cons a t => exact ⟨rfl, rfl⟩

/-- A concrete single-hit response. -/
def esHitExample : EsHit :=
  { source :=
      { title := "스토킹 처벌법", content := "스토킹 범죄의 처벌", page_number := 1,
        category := "스토킹", file_path := "laws.pdf", created_at := none },
    score := 2,
    highlight := none,
    explanation := none }

/-- C10 witness: the theorem applied to the concrete one-hit response. -/
theorem es_client_search_returns_empty_witness :
    ElasticsearchClient.decode_hits [esHitExample] =
        Except.error "TypeError: __init__ got an unexpected keyword argument" ∧
      ElasticsearchClient.search [esHitExample] = [] :=
  es_client_search_returns_empty [esHitExample] (List.cons_ne_nil _ _)

end EsClientLemmas
